import Mathlib

/-!
# Verification of the pulumi-awsx CloudWatch dashboard layout engine

Shallow embedding of `nodejs/awsx/cloudwatch/dashboard.ts` (`getDashboardBody`)
together with the widget layout engine it invokes (`RowWidget`, `ColumnWidget`,
`Widget.addWidgetJson` from `widgets_flow.ts` / `widget.ts`, which are not part
of the provided sources and are therefore modelled from the specification).
-/

namespace PulumiAwsx

/-- A positioned leaf record as serialized into the dashboard body
(`WidgetJson` in the source): absolute `x`, `y`, the widget's `width`,
`height`, its `type` string and its opaque `properties` payload. -/
structure WidgetJson where
  x : Nat
  y : Nat
  width : Nat
  height : Nat
  type : String
  properties : String
  deriving Repr, DecidableEq

/-- Modelled from the spec: the widget tree. A `leaf` carries its intrinsic
grid width and height, a `type` string and a properties-producing function
that receives the context (region) and yields the opaque properties payload.
`row` (RowWidget) and `column` (ColumnWidget) own an ordered list of
children; their width and height are derived from the children. -/
inductive Widget where
  | leaf (width height : Nat) (type : String) (props : String → String)
  | row (children : List Widget)
  | column (children : List Widget)

/-- The runtime classification performed by
`widgets[i] instanceof RowWidget` in `getDashboardBody`. -/
def Widget.isRow : Widget → Bool
  | .row _ => true
  | _ => false

mutual

/-- Modelled from the spec: a widget's derived `(width, height)`.
A leaf reports its intrinsic size; a RowWidget derives its size from the
wrap layout of its children (§4.2); a ColumnWidget derives width as the
maximum child width and height as the sum of child heights (§4.3). -/
def Widget.size : Widget → Nat × Nat
  | .leaf w h _ _ => (w, h)
  | .row cs => rowSize cs 0 0 0 0
  | .column cs => columnSize cs 0 0

/-- Modelled from the spec: the RowWidget size recursion. State is
`cursorX`, `cursorY`, `lineHeight` and the maximum `cursorX` reached so
far; a child whose width would exceed column 24 wraps first. At the end
the derived width is the maximum cursor capped at 24 and the derived
height is `cursorY + lineHeight`. -/
def rowSize : List Widget → Nat → Nat → Nat → Nat → Nat × Nat
  | [], _, cursorY, lineHeight, maxX => (min maxX 24, cursorY + lineHeight)
  | c :: rest, cursorX, cursorY, lineHeight, maxX =>
    let cw := (Widget.size c).1
    let ch := (Widget.size c).2
    let cursorX2 := if cursorX + cw > 24 then 0 else cursorX
    let cursorY2 := if cursorX + cw > 24 then cursorY + lineHeight else cursorY
    let lineHeight2 := if cursorX + cw > 24 then 0 else lineHeight
    rowSize rest (cursorX2 + cw) cursorY2 (max lineHeight2 ch) (max maxX (cursorX2 + cw))

/-- Modelled from the spec: the ColumnWidget size recursion, accumulating
the maximum child width and the sum of child heights. -/
def columnSize : List Widget → Nat → Nat → Nat × Nat
  | [], maxW, sumH => (maxW, sumH)
  | c :: rest, maxW, sumH =>
    columnSize rest (max maxW (Widget.size c).1) (sumH + (Widget.size c).2)

end

/-- A widget's derived grid width. -/
def Widget.width (w : Widget) : Nat := (Widget.size w).1

/-- A widget's derived grid height. -/
def Widget.height (w : Widget) : Nat := (Widget.size w).2

mutual

/-- Modelled from the spec: `Widget.addWidgetJson` (the `emit` operation,
§4.1). Appends the positioned records of this widget (and its children)
to the caller-supplied output sequence, anchoring the widget's top-left
corner at `(xOffset, yOffset)`; `ctx` is the region-like context passed
through unchanged to leaf properties producers. -/
def Widget.addWidgetJson : Widget → List WidgetJson → Nat → Nat → String → List WidgetJson
  | .leaf w h t p, acc, xOffset, yOffset, ctx =>
    acc ++ [⟨xOffset, yOffset, w, h, t, p ctx⟩]
  | .row cs, acc, xOffset, yOffset, ctx => rowEmit cs acc xOffset yOffset ctx 0 0 0
  | .column cs, acc, xOffset, yOffset, ctx => columnEmit cs acc xOffset yOffset ctx 0

/-- Modelled from the spec: RowWidget child emission (§4.2). For each child,
if `cursorX + child.width > 24` wrap (`cursorX = 0`, `cursorY += lineHeight`,
`lineHeight = 0`); emit the child at `(xOffset + cursorX, yOffset + cursorY)`;
then `cursorX += child.width` and `lineHeight = max lineHeight child.height`. -/
def rowEmit : List Widget → List WidgetJson → Nat → Nat → String → Nat → Nat → Nat → List WidgetJson
  | [], acc, _, _, _, _, _, _ => acc
  | c :: rest, acc, xOffset, yOffset, ctx, cursorX, cursorY, lineHeight =>
    let cw := (Widget.size c).1
    let ch := (Widget.size c).2
    let cursorX2 := if cursorX + cw > 24 then 0 else cursorX
    let cursorY2 := if cursorX + cw > 24 then cursorY + lineHeight else cursorY
    let lineHeight2 := if cursorX + cw > 24 then 0 else lineHeight
    let acc2 := Widget.addWidgetJson c acc (xOffset + cursorX2) (yOffset + cursorY2) ctx
    rowEmit rest acc2 xOffset yOffset ctx (cursorX2 + cw) cursorY2 (max lineHeight2 ch)

/-- Modelled from the spec: ColumnWidget child emission (§4.3). Each child is
emitted at `(xOffset, yOffset + cursorY)`, then `cursorY += child.height`. -/
def columnEmit : List Widget → List WidgetJson → Nat → Nat → String → Nat → List WidgetJson
  | [], acc, _, _, _, _ => acc
  | c :: rest, acc, xOffset, yOffset, ctx, cursorY =>
    let acc2 := Widget.addWidgetJson c acc xOffset (yOffset + cursorY) ctx
    columnEmit rest acc2 xOffset yOffset ctx (cursorY + (Widget.size c).2)

end

/-- The arguments of `getDashboardBody` that the body computation reads
(`DashboardArgs` in the source, with the resource-naming field and the
deferred wrappers dropped: the engine receives already-resolved values). -/
structure DashboardArgs where
  start : Option String
  «end» : Option String
  periodOverride : Option String
  widgets : Option (List Widget)

/-- The produced `DashboardBody` document. -/
structure DashboardBody where
  start : Option String
  «end» : Option String
  periodOverride : Option String
  widgets : List WidgetJson

/-- The message of the widget-count bounds error in `getDashboardBody`. -/
def boundsErrorMsg : String := "Must supply between 0 and 100 widgets."

/-- The message of the heterogeneous-list error in `getDashboardBody`. -/
def heterogeneousErrorMsg : String :=
  "All widgets must either be RowWidgets or none of them must be."

/-- `widgets[0] instanceof RowWidget`: `false` on the empty list (indexing
past the end yields `undefined`, and `undefined instanceof RowWidget` is
`false`). -/
def firstIsRow : List Widget → Bool
  | [] => false
  | w :: _ => w.isRow

/-- Translated from `getDashboardBody` in `dashboard.ts` (lines 110-139):
default the widget list to `[]`, validate the count bound (the
`length < 0` disjunct of the source is kept verbatim), validate
homogeneity against the first element's classification (the source loop
runs from index 1), normalize into rows, wrap into a root ColumnWidget,
emit at offset `(0, 0)` into an empty sequence, and assemble the body. -/
def getDashboardBody (args : DashboardArgs) (region : String) : Except String DashboardBody :=
  let widgets := args.widgets.getD []
  if widgets.length < 0 ∨ widgets.length > 100 then
    .error boundsErrorMsg
  else
    let firstWidgetIsRow := firstIsRow widgets
    if (widgets.drop 1).any (fun w => w.isRow != firstWidgetIsRow) then
      .error heterogeneousErrorMsg
    else
      let rows := if firstWidgetIsRow then widgets else [Widget.row widgets]
      let column := Widget.column rows
      let widgetJsons := Widget.addWidgetJson column [] 0 0 region
      .ok ⟨args.start, args.«end», args.periodOverride, widgetJsons⟩

/-! ### Characterization definitions

Pure (non-accumulator) forms of the emission functions and of the row
layout state, used to state the claims; each is related to the embedded
source functions by a theorem below. -/

mutual

/-- The records `Widget.addWidgetJson` contributes, as a pure list
(the accumulator version is proved equal to `acc ++ emitList ...`). -/
def emitList : Widget → Nat → Nat → String → List WidgetJson
  | .leaf w h t p, x, y, ctx => [⟨x, y, w, h, t, p ctx⟩]
  | .row cs, x, y, ctx => rowEmitList cs x y ctx 0 0 0
  | .column cs, x, y, ctx => columnEmitList cs x y ctx 0

/-- Pure form of `rowEmit`. -/
def rowEmitList : List Widget → Nat → Nat → String → Nat → Nat → Nat → List WidgetJson
  | [], _, _, _, _, _, _ => []
  | c :: rest, x, y, ctx, cursorX, cursorY, lineHeight =>
    let cw := (Widget.size c).1
    let ch := (Widget.size c).2
    let cursorX2 := if cursorX + cw > 24 then 0 else cursorX
    let cursorY2 := if cursorX + cw > 24 then cursorY + lineHeight else cursorY
    let lineHeight2 := if cursorX + cw > 24 then 0 else lineHeight
    emitList c (x + cursorX2) (y + cursorY2) ctx
      ++ rowEmitList rest x y ctx (cursorX2 + cw) cursorY2 (max lineHeight2 ch)

/-- Pure form of `columnEmit`. -/
def columnEmitList : List Widget → Nat → Nat → String → Nat → List WidgetJson
  | [], _, _, _, _ => []
  | c :: rest, x, y, ctx, cursorY =>
    emitList c x (y + cursorY) ctx ++ columnEmitList rest x y ctx (cursorY + (Widget.size c).2)

end

/-- The layout state a RowWidget threads through its children. -/
structure RowState where
  cursorX : Nat
  cursorY : Nat
  lineHeight : Nat
  maxX : Nat
  deriving Repr, DecidableEq

/-- One child step of the RowWidget layout: wrap when the child would
exceed column 24, then advance the cursor and the line height, recording
the maximum cursor reached. -/
def rowStep (st : RowState) (c : Widget) : RowState :=
  let cw := (Widget.size c).1
  let ch := (Widget.size c).2
  let cursorX2 := if st.cursorX + cw > 24 then 0 else st.cursorX
  let cursorY2 := if st.cursorX + cw > 24 then st.cursorY + st.lineHeight else st.cursorY
  let lineHeight2 := if st.cursorX + cw > 24 then 0 else st.lineHeight
  ⟨cursorX2 + cw, cursorY2, max lineHeight2 ch, max st.maxX (cursorX2 + cw)⟩

/-- The row layout state after all children, starting from the zero state. -/
def rowFinal (cs : List Widget) : RowState := cs.foldl rowStep ⟨0, 0, 0, 0⟩

/-- The relative `(x, y)` placements the wrap rule assigns to a list of
`(width, height)` pairs, starting from the given cursor state. -/
def rowPlacement : List (Nat × Nat) → Nat → Nat → Nat → List (Nat × Nat)
  | [], _, _, _ => []
  | (w, h) :: rest, cursorX, cursorY, lineHeight =>
    let cursorX2 := if cursorX + w > 24 then 0 else cursorX
    let cursorY2 := if cursorX + w > 24 then cursorY + lineHeight else cursorY
    let lineHeight2 := if cursorX + w > 24 then 0 else lineHeight
    (cursorX2, cursorY2) :: rowPlacement rest (cursorX2 + w) cursorY2 (max lineHeight2 h)

/-- The data of a leaf widget: width, height, type and the rendering
properties each leaf builds at construction. -/
structure LeafSpec where
  width : Nat
  height : Nat
  type : String
  props : String → String

/-- The leaf widget described by a `LeafSpec`. -/
def LeafSpec.toWidget (l : LeafSpec) : Widget := .leaf l.width l.height l.type l.props

/-- The record data a `LeafSpec` serializes to under a given context. -/
def LeafSpec.data (l : LeafSpec) (ctx : String) : Nat × Nat × String × String :=
  (l.width, l.height, l.type, l.props ctx)

/-- Each child of a ColumnWidget paired with its vertical offset: the sum
of the heights of the children before it. -/
def columnOffsets : List Widget → Nat → List (Widget × Nat)
  | [], _ => []
  | c :: rest, cursorY => (c, cursorY) :: columnOffsets rest (cursorY + (Widget.size c).2)

/-- Emit every widget of the list at `(x, y + its offset)` into a fresh
sequence, concatenating the results in order. -/
def emitAll : List (Widget × Nat) → Nat → Nat → String → List WidgetJson
  | [], _, _, _ => []
  | p :: rest, x, y, ctx => Widget.addWidgetJson p.1 [] x (y + p.2) ctx ++ emitAll rest x y ctx

mutual

/-- The `(width, height, type, properties)` data of every leaf reachable
from a widget, in traversal order. -/
def Widget.leafData : Widget → String → List (Nat × Nat × String × String)
  | .leaf w h t p, ctx => [(w, h, t, p ctx)]
  | .row cs, ctx => leafDataList cs ctx
  | .column cs, ctx => leafDataList cs ctx

/-- `Widget.leafData` over a list of widgets, concatenated in order. -/
def leafDataList : List Widget → String → List (Nat × Nat × String × String)
  | [], _ => []
  | c :: rest, ctx => Widget.leafData c ctx ++ leafDataList rest ctx

end

/-- Projection of an emitted record onto the leaf data it came from. -/
def projData (r : WidgetJson) : Nat × Nat × String × String :=
  (r.width, r.height, r.type, r.properties)

/-- The validation phase of `getDashboardBody` in isolation: the bounds
check, then the homogeneity check, with no layout work. -/
def validateWidgets (widgets : List Widget) : Option String :=
  if widgets.length < 0 ∨ widgets.length > 100 then some boundsErrorMsg
  else if (widgets.drop 1).any (fun w => w.isRow != firstIsRow widgets) then
    some heterogeneousErrorMsg
  else none

/-! ### Bridge lemmas: accumulator emission versus pure emission -/

mutual

/-- `addWidgetJson` only appends: it equals the caller's sequence followed
by the widget's own records. -/
theorem addWidgetJson_eq (w : Widget) (acc : List WidgetJson) (x y : Nat) (ctx : String) :
    Widget.addWidgetJson w acc x y ctx = acc ++ emitList w x y ctx := by
  cases w with
  | leaf wd h t p => simp [Widget.addWidgetJson, emitList]
  | row cs =>
    simp only [Widget.addWidgetJson, emitList]
    exact rowEmit_eq cs acc x y ctx 0 0 0
  | column cs =>
    simp only [Widget.addWidgetJson, emitList]
    exact columnEmit_eq cs acc x y ctx 0

/-- `rowEmit` only appends. -/
theorem rowEmit_eq (cs : List Widget) (acc : List WidgetJson) (x y : Nat) (ctx : String)
    (cursorX cursorY lineHeight : Nat) :
    rowEmit cs acc x y ctx cursorX cursorY lineHeight
      = acc ++ rowEmitList cs x y ctx cursorX cursorY lineHeight := by
  cases cs with
  | nil => simp [rowEmit, rowEmitList]
  | cons c rest =>
    simp only [rowEmit, rowEmitList]
    rw [rowEmit_eq rest, addWidgetJson_eq c, List.append_assoc]

/-- `columnEmit` only appends. -/
theorem columnEmit_eq (cs : List Widget) (acc : List WidgetJson) (x y : Nat) (ctx : String)
    (cursorY : Nat) :
    columnEmit cs acc x y ctx cursorY = acc ++ columnEmitList cs x y ctx cursorY := by
  cases cs with
  | nil => simp [columnEmit, columnEmitList]
  | cons c rest =>
    simp only [columnEmit, columnEmitList]
    rw [columnEmit_eq rest, addWidgetJson_eq c, List.append_assoc]

end

/-- Emitting into an empty sequence yields exactly the pure record list. -/
theorem addWidgetJson_nil (w : Widget) (x y : Nat) (ctx : String) :
    Widget.addWidgetJson w [] x y ctx = emitList w x y ctx := by
  rw [addWidgetJson_eq]; simp

/-! ### The row size recursion as a fold of the layout state -/

/-- `rowSize` computes exactly the width and height read off the fold of
`rowStep` over the children, from any starting state. -/
theorem rowSize_eq_foldl (cs : List Widget) (st : RowState) :
    rowSize cs st.cursorX st.cursorY st.lineHeight st.maxX
      = (min (cs.foldl rowStep st).maxX 24,
         (cs.foldl rowStep st).cursorY + (cs.foldl rowStep st).lineHeight) := by
  induction cs generalizing st with
  | nil => simp [rowSize]
  | cons c rest ih =>
    simp only [rowSize, List.foldl_cons]
    exact ih (rowStep st c)

/-! ### The column size recursion in closed form -/

/-- `columnSize` accumulates the maximum child width and the sum of child
heights. -/
theorem columnSize_eq (cs : List Widget) (maxW sumH : Nat) :
    columnSize cs maxW sumH
      = (cs.foldl (fun a c => max a (Widget.size c).1) maxW,
         sumH + (cs.map fun c => (Widget.size c).2).sum) := by
  induction cs generalizing maxW sumH with
  | nil => simp [columnSize]
  | cons c rest ih =>
    simp only [columnSize, List.foldl_cons, List.map_cons, List.sum_cons]
    rw [ih]
    simp [Nat.add_assoc]

/-! ### Column emission as per-child emission at summed offsets -/

/-- `columnEmitList` emits each child at its vertical offset. -/
theorem columnEmitList_eq_emitAll (cs : List Widget) (x y : Nat) (ctx : String) (cursorY : Nat) :
    columnEmitList cs x y ctx cursorY = emitAll (columnOffsets cs cursorY) x y ctx := by
  induction cs generalizing cursorY with
  | nil => simp [columnEmitList, columnOffsets, emitAll]
  | cons c rest ih =>
    simp only [columnEmitList, columnOffsets, emitAll, addWidgetJson_nil]
    rw [ih]

/-! ### Emitted records carry exactly the reachable leaves, in order -/

mutual

/-- The data of the records a widget emits is its leaf data, in traversal
order, independent of the offset. -/
theorem emitList_leafData (w : Widget) (x y : Nat) (ctx : String) :
    (emitList w x y ctx).map projData = Widget.leafData w ctx := by
  cases w with
  | leaf wd h t p => simp [emitList, Widget.leafData, projData]
  | row cs =>
    simp only [emitList, Widget.leafData]
    exact rowEmitList_leafData cs x y ctx 0 0 0
  | column cs =>
    simp only [emitList, Widget.leafData]
    exact columnEmitList_leafData cs x y ctx 0

/-- Row emission: record data is the children's leaf data, whatever the
cursor state. -/
theorem rowEmitList_leafData (cs : List Widget) (x y : Nat) (ctx : String)
    (cursorX cursorY lineHeight : Nat) :
    (rowEmitList cs x y ctx cursorX cursorY lineHeight).map projData = leafDataList cs ctx := by
  cases cs with
  | nil => simp [rowEmitList, leafDataList]
  | cons c rest =>
    simp only [rowEmitList, leafDataList, List.map_append]
    rw [emitList_leafData c, rowEmitList_leafData rest]

/-- Column emission: record data is the children's leaf data, whatever the
cursor state. -/
theorem columnEmitList_leafData (cs : List Widget) (x y : Nat) (ctx : String) (cursorY : Nat) :
    (columnEmitList cs x y ctx cursorY).map projData = leafDataList cs ctx := by
  cases cs with
  | nil => simp [columnEmitList, leafDataList]
  | cons c rest =>
    simp only [columnEmitList, leafDataList, List.map_append]
    rw [emitList_leafData c, columnEmitList_leafData rest]

end

/-! ### Row emission positions for a row of leaves -/

/-- For a row of leaves, the emitted `(x, y)` positions are the wrap-rule
placements of the leaves' sizes, shifted by the row's offset. -/
theorem rowEmitList_leaf_positions (ls : List LeafSpec) (x y : Nat) (ctx : String)
    (cursorX cursorY lineHeight : Nat) :
    (rowEmitList (ls.map LeafSpec.toWidget) x y ctx cursorX cursorY lineHeight).map
        (fun r => (r.x, r.y))
      = (rowPlacement (ls.map fun l => (l.width, l.height)) cursorX cursorY lineHeight).map
          (fun p => (x + p.1, y + p.2)) := by
  induction ls generalizing cursorX cursorY lineHeight with
  | nil => simp [rowEmitList, rowPlacement]
  | cons l rest ih =>
    simp only [List.map_cons, rowEmitList, rowPlacement, LeafSpec.toWidget, Widget.size,
      emitList, List.map_append, List.map_cons, List.map_nil, List.singleton_append,
      List.cons_append, List.nil_append]
    rw [ih]

/-! ### Decomposing the body builder into validation then layout -/

/-- The rows the builder normalizes a validated list into. -/
def normalizeRows (widgets : List Widget) : List Widget :=
  if firstIsRow widgets then widgets else [Widget.row widgets]

/-- `getDashboardBody` is exactly: run the pure validation, and if it
passes, lay out the normalized root column at `(0, 0)` from an empty
sequence and assemble the body. -/
theorem getDashboardBody_eq_validate (args : DashboardArgs) (region : String) :
    getDashboardBody args region
      = (match validateWidgets (args.widgets.getD []) with
         | some e => Except.error e
         | none =>
           Except.ok ⟨args.start, args.«end», args.periodOverride,
             Widget.addWidgetJson (.column (normalizeRows (args.widgets.getD []))) [] 0 0 region⟩) := by
  simp only [getDashboardBody, validateWidgets, normalizeRows]
  split_ifs <;> rfl

/-- If validation passes, the builder returns a body (no error). -/
theorem getDashboardBody_ok_of_valid (args : DashboardArgs) (region : String)
    (h : validateWidgets (args.widgets.getD []) = none) :
    getDashboardBody args region
      = Except.ok ⟨args.start, args.«end», args.periodOverride,
          Widget.addWidgetJson (.column (normalizeRows (args.widgets.getD []))) [] 0 0 region⟩ := by
  rw [getDashboardBody_eq_validate, h]

/-- If validation fails, the builder raises exactly that error. -/
theorem getDashboardBody_error_of_invalid (args : DashboardArgs) (region : String) (e : String)
    (h : validateWidgets (args.widgets.getD []) = some e) :
    getDashboardBody args region = Except.error e := by
  rw [getDashboardBody_eq_validate, h]

/-- Membership form of the homogeneity check. -/
theorem any_mixed_iff (ws : List Widget) :
    ((ws.drop 1).any (fun w => w.isRow != firstIsRow ws) = true)
      ↔ ∃ w ∈ ws, w.isRow ≠ firstIsRow ws := by
  cases ws with
  | nil => simp
  | cons a t =>
    simp only [List.drop_succ_cons, List.drop_zero, List.any_eq_true, bne_iff_ne, ne_eq,
      List.mem_cons, firstIsRow]
    constructor
    · rintro ⟨w, hw, hne⟩
      exact ⟨w, Or.inr hw, hne⟩
    · rintro ⟨w, hw | hw, hne⟩
      · exact absurd rfl (hw ▸ hne)
      · exact ⟨w, hw, hne⟩

/-- The two validation error messages are distinct. -/
theorem boundsMsg_ne_heterogeneousMsg : boundsErrorMsg ≠ heterogeneousErrorMsg := by
  decide

/-- Validation reports the bounds error exactly on more than 100 widgets
(the `length < 0` disjunct never fires). -/
theorem validateWidgets_bounds_iff (ws : List Widget) :
    validateWidgets ws = some boundsErrorMsg ↔ ws.length > 100 := by
  unfold validateWidgets
  split_ifs with h1 h2
  · simp only [Option.some_inj, true_iff]
    rcases h1 with h1 | h1
    · omega
    · exact h1
  · simp only [Option.some_inj]
    constructor
    · intro h
      exact absurd h.symm boundsMsg_ne_heterogeneousMsg
    · intro h
      exact absurd (Or.inr h) h1
  · simp only [reduceCtorEq, false_iff]
    intro h
    exact h1 (Or.inr h)

/-- Within bounds, validation reports the heterogeneity error exactly when
some widget differs in row-classification from the first. -/
theorem validateWidgets_hetero_iff (ws : List Widget) (hlen : ws.length ≤ 100) :
    validateWidgets ws = some heterogeneousErrorMsg ↔ ∃ w ∈ ws, w.isRow ≠ firstIsRow ws := by
  unfold validateWidgets
  rw [if_neg (by omega)]
  split_ifs with h2
  · simp only [Option.some_inj, true_iff]
    exact (any_mixed_iff ws).mp h2
  · simp only [reduceCtorEq, false_iff]
    intro h
    exact h2 ((any_mixed_iff ws).mpr h)

/-- Validation passes exactly on an in-bounds, homogeneous list. -/
theorem validateWidgets_none_iff (ws : List Widget) :
    validateWidgets ws = none ↔ ws.length ≤ 100 ∧ ∀ w ∈ ws, w.isRow = firstIsRow ws := by
  unfold validateWidgets
  split_ifs with h1 h2
  · simp only [reduceCtorEq, false_iff]
    intro h
    omega
  · simp only [reduceCtorEq, false_iff]
    rintro ⟨-, hall⟩
    obtain ⟨w, hw, hne⟩ := (any_mixed_iff ws).mp h2
    exact hne (hall w hw)
  · simp only [true_iff]
    refine ⟨by omega, fun w hw => ?_⟩
    by_contra hne
    exact h2 ((any_mixed_iff ws).mpr ⟨w, hw, hne⟩)

/-- The builder returns a given error exactly when validation reports it. -/
theorem getDashboardBody_error_iff (args : DashboardArgs) (region : String) (e : String) :
    getDashboardBody args region = Except.error e
      ↔ validateWidgets (args.widgets.getD []) = some e := by
  rw [getDashboardBody_eq_validate]
  cases h : validateWidgets (args.widgets.getD []) with
  | none => simp
  | some e2 => simp

/-! ### Claim theorems -/

/-- C1: RowWidget placement follows the wrap rule: with `cursorX`,
`cursorY`, `lineHeight` all starting at 0, a child is wrapped exactly when
`cursorX + child.width > 24`, is emitted at
`(xOffset + cursorX, yOffset + cursorY)`, then `cursorX` advances by the
child's width and `lineHeight` becomes the max with the child's height
(this is the `rowPlacement` recurrence); in particular three width-10
children land at `x`, `x+10`, and wrapped to `x` on the next line, while
two width-12 children land at `x` and `x+12` with no wrap. -/
theorem rowWidget_wrap_placement :
    (∀ (ls : List LeafSpec) (x y : Nat) (ctx : String),
      (Widget.addWidgetJson (.row (ls.map LeafSpec.toWidget)) [] x y ctx).map
          (fun r => (r.x, r.y))
        = (rowPlacement (ls.map fun l => (l.width, l.height)) 0 0 0).map
            (fun p => (x + p.1, y + p.2)))
    ∧ (∀ (h1 h2 h3 : Nat) (t : String) (p : String → String) (x y : Nat) (ctx : String),
      (Widget.addWidgetJson
            (.row [.leaf 10 h1 t p, .leaf 10 h2 t p, .leaf 10 h3 t p]) [] x y ctx).map
          (fun r => (r.x, r.y))
        = [(x, y), (x + 10, y), (x, y + max h1 h2)])
    ∧ (∀ (h1 h2 : Nat) (t : String) (p : String → String) (x y : Nat) (ctx : String),
      (Widget.addWidgetJson (.row [.leaf 12 h1 t p, .leaf 12 h2 t p]) [] x y ctx).map
          (fun r => (r.x, r.y))
        = [(x, y), (x + 12, y)]) := by
  refine ⟨fun ls x y ctx => ?_, fun h1 h2 h3 t p x y ctx => ?_, fun h1 h2 t p x y ctx => ?_⟩
  · rw [addWidgetJson_nil]
    simp only [emitList]
    exact rowEmitList_leaf_positions ls x y ctx 0 0 0
  · rw [addWidgetJson_nil]
    simp [emitList, rowEmitList, Widget.size]
  · rw [addWidgetJson_nil]
    simp [emitList, rowEmitList, Widget.size]

/-- C2 (counterexample): with 101 widgets whose classifications are mixed
(a RowWidget followed by 100 leaves), some element differs in
row-classification from the first, yet the Builder does not raise the
heterogeneous-list error — the bounds check fires first. -/
theorem heterogeneous_error_shadowed_by_bounds :
    (∃ w ∈ (Widget.row [] :: List.replicate 100 (Widget.leaf 1 1 "text" fun _ => "props")),
        w.isRow ≠ firstIsRow
          (Widget.row [] :: List.replicate 100 (Widget.leaf 1 1 "text" fun _ => "props")))
    ∧ getDashboardBody
        ⟨none, none, none,
          some (Widget.row [] :: List.replicate 100 (Widget.leaf 1 1 "text" fun _ => "props"))⟩
        "region"
      ≠ Except.error heterogeneousErrorMsg := by
  constructor
  · refine ⟨Widget.leaf 1 1 "text" (fun _ => "props"), ?_, ?_⟩
    · simp [List.mem_replicate]
    · simp [Widget.isRow, firstIsRow]
  · have hv : validateWidgets
        ((⟨none, none, none,
            some (Widget.row [] :: List.replicate 100 (Widget.leaf 1 1 "text" fun _ => "props"))⟩ :
          DashboardArgs).widgets.getD []) = some boundsErrorMsg := by
      rw [Option.getD_some, validateWidgets_bounds_iff]
      simp
    rw [getDashboardBody_error_of_invalid _ _ _ hv]
    simp only [ne_eq, Except.error.injEq]
    exact boundsMsg_ne_heterogeneousMsg

/-- C2 (amended): provided the widget count is within the 100-widget bound
(so the bounds check, which runs first, passes), the Builder raises the
heterogeneous-list error iff some element of the list differs in
row-classification from the first element; a list `[RowWidget, leaf]`
fails with that error, and a list of two leaves succeeds, wrapped into one
synthetic RowWidget. -/
theorem heterogeneous_error_iff_mixed :
    (∀ (args : DashboardArgs) (region : String),
      (args.widgets.getD []).length ≤ 100 →
      (getDashboardBody args region = Except.error heterogeneousErrorMsg
        ↔ ∃ w ∈ args.widgets.getD [], w.isRow ≠ firstIsRow (args.widgets.getD [])))
    ∧ (∀ (r : List Widget) (l : LeafSpec) (args : DashboardArgs) (region : String),
      args.widgets = some [Widget.row r, l.toWidget] →
      getDashboardBody args region = Except.error heterogeneousErrorMsg)
    ∧ (∀ (l1 l2 : LeafSpec) (args : DashboardArgs) (region : String),
      args.widgets = some [l1.toWidget, l2.toWidget] →
      getDashboardBody args region
        = Except.ok ⟨args.start, args.«end», args.periodOverride,
            Widget.addWidgetJson (.column [Widget.row [l1.toWidget, l2.toWidget]]) [] 0 0 region⟩) := by
  refine ⟨fun args region hlen => ?_, fun r l args region h => ?_, fun l1 l2 args region h => ?_⟩
  · exact (getDashboardBody_error_iff args region heterogeneousErrorMsg).trans
      (validateWidgets_hetero_iff _ hlen)
  · apply getDashboardBody_error_of_invalid
    rw [h, Option.getD_some]
    refine (validateWidgets_hetero_iff _ (by simp)).mpr ?_
    exact ⟨l.toWidget, by simp, by simp [LeafSpec.toWidget, Widget.isRow, firstIsRow]⟩
  · have hv : validateWidgets (args.widgets.getD []) = none := by
      rw [h, Option.getD_some]
      refine (validateWidgets_none_iff _).mpr ⟨by simp, ?_⟩
      intro w hw
      rcases List.mem_pair.mp hw with rfl | rfl <;>
        simp [LeafSpec.toWidget, Widget.isRow, firstIsRow]
    rw [getDashboardBody_ok_of_valid args region hv, h]
    rfl

/-- C2 (witness): the amended theorem at the concrete list
`[RowWidget, leaf]`. -/
theorem heterogeneous_error_iff_mixed_witness :
    getDashboardBody
        ⟨none, none, none, some [Widget.row [], Widget.leaf 1 1 "t" fun _ => "p"]⟩ "r"
      = Except.error heterogeneousErrorMsg :=
  heterogeneous_error_iff_mixed.2.1 [] ⟨1, 1, "t", fun _ => "p"⟩ _ "r" rfl

/-- C3: the Builder raises the bounds error exactly when the widget count
exceeds 100 (equivalently, is outside `[0, 100]`, the lower-bound branch
being unreachable since a length is never negative); 0 widgets yields an
empty widgets array with no error, 100 homogeneous widgets succeed, and
101 widgets raise the bounds error. -/
theorem bounds_error_iff_over_100 :
    (∀ (args : DashboardArgs) (region : String),
      getDashboardBody args region = Except.error boundsErrorMsg
        ↔ (args.widgets.getD []).length > 100)
    ∧ (∀ ws : List Widget, ¬ ws.length < 0)
    ∧ (∀ (args : DashboardArgs) (region : String),
      args.widgets.getD [] = [] →
      getDashboardBody args region
        = Except.ok ⟨args.start, args.«end», args.periodOverride, []⟩)
    ∧ (∀ (args : DashboardArgs) (region : String),
      (args.widgets.getD []).length = 100 →
      (∀ w ∈ args.widgets.getD [], w.isRow = firstIsRow (args.widgets.getD [])) →
      ∃ b, getDashboardBody args region = Except.ok b)
    ∧ (∀ (args : DashboardArgs) (region : String),
      (args.widgets.getD []).length = 101 →
      getDashboardBody args region = Except.error boundsErrorMsg) := by
  have herr : ∀ (args : DashboardArgs) (region : String),
      getDashboardBody args region = Except.error boundsErrorMsg
        ↔ (args.widgets.getD []).length > 100 := fun args region =>
    (getDashboardBody_error_iff args region boundsErrorMsg).trans
      (validateWidgets_bounds_iff _)
  refine ⟨herr, fun ws => by omega, fun args region h => ?_, fun args region hlen hall => ?_,
    fun args region hlen => ?_⟩
  · have hv : validateWidgets (args.widgets.getD []) = none := by
      rw [h]
      rfl
    rw [getDashboardBody_ok_of_valid args region hv, h]
    rfl
  · have hv : validateWidgets (args.widgets.getD []) = none :=
      (validateWidgets_none_iff _).mpr ⟨by omega, hall⟩
    exact ⟨_, getDashboardBody_ok_of_valid args region hv⟩
  · exact (herr args region).mpr (by omega)

/-- C3 (witness): the theorem at the empty list and at 101 concrete
leaves. -/
theorem bounds_error_iff_over_100_witness :
    getDashboardBody (⟨none, none, none, none⟩ : DashboardArgs) "r"
        = Except.ok ⟨none, none, none, []⟩
    ∧ getDashboardBody
        ⟨none, none, none, some (List.replicate 101 (Widget.leaf 1 1 "t" fun _ => "p"))⟩ "r"
      = Except.error boundsErrorMsg :=
  ⟨bounds_error_iff_over_100.2.2.1 ⟨none, none, none, none⟩ "r" rfl,
   bounds_error_iff_over_100.2.2.2.2
     ⟨none, none, none, some (List.replicate 101 (Widget.leaf 1 1 "t" fun _ => "p"))⟩ "r"
     (by simp)⟩

/-- C4: for every in-bounds, homogeneous top-level list the Builder uses
the list itself as the row sequence when its first element is a RowWidget,
otherwise wraps the whole list into one synthetic RowWidget; wraps the
rows into a single root ColumnWidget; and runs emit on that root at offset
`(0, 0)` with an empty output sequence and the supplied context to obtain
the body's widgets array. -/
theorem builder_normalization (args : DashboardArgs) (region : String)
    (hlen : (args.widgets.getD []).length ≤ 100)
    (hall : ∀ w ∈ args.widgets.getD [], w.isRow = firstIsRow (args.widgets.getD [])) :
    getDashboardBody args region
      = Except.ok ⟨args.start, args.«end», args.periodOverride,
          Widget.addWidgetJson
            (.column (if firstIsRow (args.widgets.getD []) then args.widgets.getD []
                      else [Widget.row (args.widgets.getD [])]))
            [] 0 0 region⟩ :=
  getDashboardBody_ok_of_valid args region ((validateWidgets_none_iff _).mpr ⟨hlen, hall⟩)

/-- C4 (witness): the theorem at a one-leaf list. -/
theorem builder_normalization_witness :
    getDashboardBody
        ⟨some "s", some "e", some "auto", some [Widget.leaf 6 6 "t" fun _ => "p"]⟩ "us"
      = Except.ok ⟨some "s", some "e", some "auto", [⟨0, 0, 6, 6, "t", "p"⟩]⟩ := by
  rw [builder_normalization
    ⟨some "s", some "e", some "auto", some [Widget.leaf 6 6 "t" fun _ => "p"]⟩ "us"
    (by simp) (by simp [Widget.isRow, firstIsRow])]
  rfl

/-- C5: a ColumnWidget emits each child at `(xOffset, yOffset + cursorY)`
with `cursorY` the sum of the heights of the earlier children (no
wrapping); its derived height is the sum of the children's heights and its
derived width the maximum of the children's widths; two Rows of heights 6
and 9 get offsets 0 and 6 and the Column derives height 15. -/
theorem columnWidget_stacking :
    (∀ (cs : List Widget) (x y : Nat) (ctx : String),
      Widget.addWidgetJson (.column cs) [] x y ctx = emitAll (columnOffsets cs 0) x y ctx)
    ∧ (∀ cs : List Widget,
      Widget.size (.column cs)
        = ((cs.map Widget.width).foldl max 0, (cs.map Widget.height).sum))
    ∧ (∀ r1 r2 : List Widget,
      Widget.height (.row r1) = 6 → Widget.height (.row r2) = 9 →
      columnOffsets [Widget.row r1, Widget.row r2] 0
          = [(Widget.row r1, 0), (Widget.row r2, 6)]
        ∧ Widget.height (.column [Widget.row r1, Widget.row r2]) = 15) := by
  refine ⟨fun cs x y ctx => ?_, fun cs => ?_, fun r1 r2 h1 h2 => ⟨?_, ?_⟩⟩
  · rw [addWidgetJson_nil]
    simp only [emitList]
    exact columnEmitList_eq_emitAll cs x y ctx 0
  · rw [show Widget.size (.column cs) = columnSize cs 0 0 from rfl, columnSize_eq,
      List.foldl_map]
    simp only [Nat.zero_add]
    rfl
  · simp only [columnOffsets]
    rw [show (Widget.size (Widget.row r1)).2 = Widget.height (Widget.row r1) from rfl, h1]
  · rw [show Widget.height (.column [Widget.row r1, Widget.row r2])
        = (columnSize [Widget.row r1, Widget.row r2] 0 0).2 from rfl, columnSize_eq]
    simp only [List.map_cons, List.map_nil, List.sum_cons, List.sum_nil]
    rw [show (Widget.size (Widget.row r1)).2 = Widget.height (Widget.row r1) from rfl, h1,
      show (Widget.size (Widget.row r2)).2 = Widget.height (Widget.row r2) from rfl, h2]
    omega

/-- C5 (witness): the stacking conjunct at two concrete one-leaf rows of
heights 6 and 9. -/
theorem columnWidget_stacking_witness :
    columnOffsets
        [Widget.row [Widget.leaf 4 6 "t" fun _ => "p"],
         Widget.row [Widget.leaf 4 9 "t" fun _ => "p"]] 0
      = [(Widget.row [Widget.leaf 4 6 "t" fun _ => "p"], 0),
         (Widget.row [Widget.leaf 4 9 "t" fun _ => "p"], 6)]
    ∧ Widget.height
        (.column [Widget.row [Widget.leaf 4 6 "t" fun _ => "p"],
                  Widget.row [Widget.leaf 4 9 "t" fun _ => "p"]]) = 15 :=
  columnWidget_stacking.2.2 [Widget.leaf 4 6 "t" fun _ => "p"]
    [Widget.leaf 4 9 "t" fun _ => "p"] rfl rfl

/-- C6: after a RowWidget processes all its children, its derived height
is `cursorY + lineHeight` of the final layout state and its derived width
is the maximum `cursorX` reached, capped at 24. -/
theorem rowWidget_derived_size (cs : List Widget) :
    Widget.size (.row cs)
      = (min (rowFinal cs).maxX 24, (rowFinal cs).cursorY + (rowFinal cs).lineHeight) := by
  have h := rowSize_eq_foldl cs ⟨0, 0, 0, 0⟩
  rw [show Widget.size (.row cs) = rowSize cs 0 0 0 0 from rfl]
  exact h

/-- C7: the flattened output contains exactly one record per reachable
leaf, in traversal order: the emitted records' data is the tree's leaf
data, the lengths agree, and a Column of two Rows with two Leaves each
yields exactly 4 records ordered Row1-Leaf1, Row1-Leaf2, Row2-Leaf1,
Row2-Leaf2. -/
theorem flatten_leaf_records :
    (∀ (w : Widget) (x y : Nat) (ctx : String),
      (Widget.addWidgetJson w [] x y ctx).map projData = Widget.leafData w ctx)
    ∧ (∀ (w : Widget) (x y : Nat) (ctx : String),
      (Widget.addWidgetJson w [] x y ctx).length = (Widget.leafData w ctx).length)
    ∧ (∀ (l1 l2 l3 l4 : LeafSpec) (x y : Nat) (ctx : String),
      (Widget.addWidgetJson
          (.column [.row [l1.toWidget, l2.toWidget], .row [l3.toWidget, l4.toWidget]])
          [] x y ctx).map projData
        = [l1.data ctx, l2.data ctx, l3.data ctx, l4.data ctx]) := by
  have hmap : ∀ (w : Widget) (x y : Nat) (ctx : String),
      (Widget.addWidgetJson w [] x y ctx).map projData = Widget.leafData w ctx := by
    intro w x y ctx
    rw [addWidgetJson_nil]
    exact emitList_leafData w x y ctx
  refine ⟨hmap, fun w x y ctx => ?_, fun l1 l2 l3 l4 x y ctx => ?_⟩
  · rw [← hmap w x y ctx, List.length_map]
  · rw [hmap]
    simp [Widget.leafData, leafDataList, LeafSpec.toWidget, LeafSpec.data]

/-- C8: validation errors are decided by the pure validation phase alone,
before any layout work: a validation failure is returned as-is (no body,
hence no partial output), validation success always yields a body, and
which error is raised does not depend on the layout context. -/
theorem validation_before_layout :
    (∀ (args : DashboardArgs) (region : String) (e : String),
      validateWidgets (args.widgets.getD []) = some e →
      getDashboardBody args region = Except.error e)
    ∧ (∀ (args : DashboardArgs) (region : String),
      validateWidgets (args.widgets.getD []) = none →
      ∃ b, getDashboardBody args region = Except.ok b)
    ∧ (∀ (args : DashboardArgs) (r1 r2 : String) (e : String),
      getDashboardBody args r1 = Except.error e →
      getDashboardBody args r2 = Except.error e) := by
  refine ⟨fun args region e h => getDashboardBody_error_of_invalid args region e h,
    fun args region h => ⟨_, getDashboardBody_ok_of_valid args region h⟩,
    fun args r1 r2 e h => ?_⟩
  exact (getDashboardBody_error_iff args r2 e).mpr ((getDashboardBody_error_iff args r1 e).mp h)

/-- C8 (witness): the context-independence conjunct at a concrete mixed
list, moving the heterogeneity error from one region to another. -/
theorem validation_before_layout_witness :
    getDashboardBody
        ⟨none, none, none, some [Widget.row [], Widget.leaf 2 2 "m" fun _ => "q"]⟩ "eu-west-1"
      = Except.error heterogeneousErrorMsg :=
  validation_before_layout.2.2
    ⟨none, none, none, some [Widget.row [], Widget.leaf 2 2 "m" fun _ => "q"]⟩
    "us-east-2" "eu-west-1" heterogeneousErrorMsg rfl

/-- C9: the body build is deterministic — identical widget lists, scalar
fields and context produce identical documents; the computation is a pure
function of its inputs with no hidden state. -/
theorem builder_deterministic (args1 args2 : DashboardArgs) (r1 r2 : String)
    (hargs : args1 = args2) (hr : r1 = r2) :
    getDashboardBody args1 r1 = getDashboardBody args2 r2 := by
  subst hargs
  subst hr
  rfl

/-- C9 (witness): the theorem at a concrete argument pair. -/
theorem builder_deterministic_witness :
    getDashboardBody ⟨some "-PT8H", none, some "inherit", some [Widget.leaf 3 3 "t" fun _ => "p"]⟩ "r"
      = getDashboardBody ⟨some "-PT8H", none, some "inherit", some [Widget.leaf 3 3 "t" fun _ => "p"]⟩ "r" :=
  builder_deterministic _ _ "r" "r" rfl rfl

/-- C10: when the widgets field is omitted, the Builder behaves exactly as
on an empty widget list: no error, an empty widgets array, and `start`,
`end`, `periodOverride` passed through unchanged. -/
theorem widgets_omitted_like_empty (args : DashboardArgs) (region : String)
    (h : args.widgets = none) :
    getDashboardBody args region
        = getDashboardBody ⟨args.start, args.«end», args.periodOverride, some []⟩ region
      ∧ getDashboardBody args region
        = Except.ok ⟨args.start, args.«end», args.periodOverride, []⟩ := by
  obtain ⟨s, e, p, w⟩ := args
  have hw : w = none := h
  subst hw
  exact ⟨rfl, rfl⟩

/-- C10 (witness): the theorem at concrete scalar fields with the widgets
field omitted. -/
theorem widgets_omitted_like_empty_witness :
    getDashboardBody ⟨some "-P3M", none, some "auto", none⟩ "r"
        = getDashboardBody ⟨some "-P3M", none, some "auto", some []⟩ "r"
      ∧ getDashboardBody ⟨some "-P3M", none, some "auto", none⟩ "r"
        = Except.ok ⟨some "-P3M", none, some "auto", []⟩ :=
  widgets_omitted_like_empty ⟨some "-P3M", none, some "auto", none⟩ "r" rfl

end PulumiAwsx
